import Mathlib

/-!
# `android_media_audio_common_AidlConversion.cpp`

A shallow embedding of the JNI glue in `core/jni/android_media_audio_common_AidlConversion.cpp`:
the two generic adapters `aidl2legacy` and `legacy2aidl` and the four bindings built on them.

The collaborators the file calls but does not define are parameters of the embedding:

* the JNI / Parcel runtime (`createJavaParcelObject`, `parcelForJavaObject`,
  `Parcel::setDataPosition`, `JNIEnv::DeleteLocalRef`) is a record of state transformers over
  an arbitrary state type `σ`;
* the AIDL type (`readFromParcel`, `writeToParcel`, value initialisation) is a record over an
  arbitrary type `A`;
* the semantic conversion library (`media/AidlConversion.h`) and the two sentinels of
  `system/audio.h` are a record `AudioLibrary`.

Every adapter returns its C++ return value together with the sequence of calls it made and the
runtime state it left behind.
-/

namespace AidlConversion

/-! ## Machine types -/

/-- A JNI reference; `0` is the null reference. -/
abbrev jobject := Nat

/-- A native `Parcel*`; `0` is `nullptr`. -/
abbrev ParcelPtr := Nat

/-- The type `status_t`. -/
abbrev status_t := Int

/-- The status `OK`. -/
def OK : status_t := 0

/-- A 32-bit unsigned value: the underlying type of `audio_channel_mask_t` and
`audio_format_t`. -/
abbrev uint32_t := Fin 4294967296

/-- The enum `audio_channel_mask_t`. -/
abbrev audio_channel_mask_t := uint32_t

/-- The enum `audio_format_t`. -/
abbrev audio_format_t := uint32_t

/-- A Java / C++ `int`: a 32-bit two's complement value. -/
def isInt32 (i : Int) : Prop := -2147483648 ≤ i ∧ i < 2147483648

instance (i : Int) : Decidable (isInt32 i) := by unfold isInt32; infer_instance

/-- The conversion applied by `return legacy.value();` in a function returning `int`, and by
passing `AUDIO_CHANNEL_INVALID` / `AUDIO_FORMAT_INVALID` for an `int` parameter: the unsigned
32-bit value reinterpreted as two's complement. -/
def toInt (u : uint32_t) : Int :=
  if u.val < 2147483648 then (u.val : Int) else (u.val : Int) - 4294967296

/-- The conversion `static_cast<audio_channel_mask_t>(legacy)` /
`static_cast<audio_format_t>(legacy)` of an `int`: reduction modulo `2^32`. -/
def ofInt (i : Int) : uint32_t :=
  ⟨(i % 4294967296).toNat, by omega⟩

/-- The type `ConversionResult<T>`: a value, or the status of the failure. The test `ok()` holds
on `Except.ok value`, and `value()` is then `value`. -/
abbrev ConversionResult (T : Type) := Except status_t T

/-! ## Collaborators -/

/-- The JNI / Parcel runtime the adapters run against, over a runtime state `σ`. -/
structure Runtime (σ : Type) where
  /-- The call `createJavaParcelObject(env)`: the new reference (`0` on failure). -/
  createJavaParcelObject : σ → jobject × σ
  /-- The call `parcelForJavaObject(env, obj)`: the native parcel (`0` if there is none). -/
  parcelForJavaObject : jobject → σ → ParcelPtr × σ
  /-- The call `parcel->setDataPosition(pos)`. -/
  setDataPosition : ParcelPtr → Nat → σ → σ
  /-- The call `env->DeleteLocalRef(obj)`. -/
  DeleteLocalRef : jobject → σ → σ

/-- An AIDL parcelable type `A` over the runtime state `σ`. -/
structure Parcelable (σ A : Type) where
  /-- The value-initialised object `AidlType aidl{}`. -/
  init : A
  /-- The method `aidl.readFromParcel(parcel)`: the status, the object afterwards, the state. -/
  readFromParcel : A → ParcelPtr → σ → status_t × A × σ
  /-- The method `aidl.writeToParcel(parcel)`: the status and the state. -/
  writeToParcel : A → ParcelPtr → σ → status_t × σ

/-- The semantic conversion functions of `media/AidlConversion.h` and the sentinels of
`system/audio.h`, over the AIDL types `Layout` (`AudioChannelLayout`) and `Format`
(`AudioFormatDescription`). -/
structure AudioLibrary (Layout Format : Type) where
  AUDIO_CHANNEL_INVALID : audio_channel_mask_t
  AUDIO_FORMAT_INVALID : audio_format_t
  aidl2legacy_AudioChannelLayout_audio_channel_mask_t :
    Layout → Bool → ConversionResult audio_channel_mask_t
  legacy2aidl_audio_channel_mask_t_AudioChannelLayout :
    audio_channel_mask_t → Bool → ConversionResult Layout
  aidl2legacy_AudioFormatDescription_audio_format_t :
    Format → ConversionResult audio_format_t
  legacy2aidl_audio_format_t_AudioFormatDescription :
    audio_format_t → ConversionResult Format

/-! ## Calls and runs -/

/-- One call made by an adapter, in program order. -/
inductive Call where
  | parcelForJavaObject (obj : jobject)
  | readFromParcel (parcel : ParcelPtr)
  | writeToParcel (parcel : ParcelPtr)
  | conv
  | createJavaParcelObject
  | setDataPosition (parcel : ParcelPtr) (pos : Nat)
  | DeleteLocalRef (obj : jobject)
  | ALOGE (fmt : String) (args : List Int)
  deriving DecidableEq, Repr

/-- Is the call a diagnostic (`ALOGE`)? -/
def Call.isLog : Call → Bool
  | .ALOGE _ _ => true
  | _ => false

/-- Is the call an invocation of the conversion function? -/
def Call.isConv : Call → Bool
  | .conv => true
  | _ => false

/-- Is the call a `readFromParcel`? -/
def Call.isRead : Call → Bool
  | .readFromParcel _ => true
  | _ => false

/-- Is the call a `writeToParcel`? -/
def Call.isWrite : Call → Bool
  | .writeToParcel _ => true
  | _ => false

/-- Is the call a `createJavaParcelObject`? -/
def Call.isCreate : Call → Bool
  | .createJavaParcelObject => true
  | _ => false

/-- Is the call a `parcelForJavaObject`? -/
def Call.isResolve : Call → Bool
  | .parcelForJavaObject _ => true
  | _ => false

/-- Is the call a `DeleteLocalRef`? -/
def Call.isDelete : Call → Bool
  | .DeleteLocalRef _ => true
  | _ => false

/-- The result of running an adapter: the returned value, the calls made, the state left. -/
structure Run (σ R : Type) where
  ret : R
  trace : List Call
  env : σ

/-! ## The generic adapters -/

/-- The template `aidl2legacy<AidlType, ConvFunc>` (lines 35-52). The scalar inside the result of
`conv` is an unsigned 32-bit enum in both instantiations; `return legacy.value();` converts it to
`int`. -/
def aidl2legacy {σ A : Type} (rt : Runtime σ) (P : Parcelable σ A)
    (env : σ) (_clazz : jobject) (jParcel : jobject)
    (conv : A → ConversionResult uint32_t) (fallbackValue : Int) : Run σ Int :=
  let r := rt.parcelForJavaObject jParcel env
  let parcel := r.1
  if parcel ≠ 0 then
    let rd := P.readFromParcel P.init parcel r.2
    let status := rd.1
    let aidl := rd.2.1
    if status = OK then
      match conv aidl with
      | .ok value =>
        ⟨toInt value, [.parcelForJavaObject jParcel, .readFromParcel parcel, .conv], rd.2.2⟩
      | .error _ =>
        ⟨fallbackValue, [.parcelForJavaObject jParcel, .readFromParcel parcel, .conv], rd.2.2⟩
    else
      ⟨fallbackValue,
        [.parcelForJavaObject jParcel, .readFromParcel parcel,
         .ALOGE "aidl2legacy: Failed to read from parcel: %d" [status]], rd.2.2⟩
  else
    ⟨fallbackValue,
      [.parcelForJavaObject jParcel,
       .ALOGE "aidl2legacy: Failed to retrieve the native parcel from Java parcel" []], r.2⟩

/-- The template `legacy2aidl<LegacyType, ConvFunc>` (lines 54-74). -/
def legacy2aidl {σ A L : Type} (rt : Runtime σ) (P : Parcelable σ A)
    (env : σ) (_clazz : jobject) (legacy : L) (conv : L → ConversionResult A) :
    Run σ jobject :=
  match conv legacy with
  | .error _ => ⟨0, [.conv], env⟩
  | .ok value =>
    let c := rt.createJavaParcelObject env
    let jParcel := c.1
    if jParcel ≠ 0 then
      let r := rt.parcelForJavaObject jParcel c.2
      let parcel := r.1
      if parcel ≠ 0 then
        let w := P.writeToParcel value parcel r.2
        let status := w.1
        if status = OK then
          ⟨jParcel,
            [.conv, .createJavaParcelObject, .parcelForJavaObject jParcel,
             .writeToParcel parcel, .setDataPosition parcel 0],
            rt.setDataPosition parcel 0 w.2⟩
        else
          ⟨0,
            [.conv, .createJavaParcelObject, .parcelForJavaObject jParcel,
             .writeToParcel parcel, .DeleteLocalRef jParcel],
            rt.DeleteLocalRef jParcel w.2⟩
      else
        ⟨0,
          [.conv, .createJavaParcelObject, .parcelForJavaObject jParcel,
           .ALOGE "legacy2aidl: Failed to retrieve the native parcel from Java parcel" [],
           .DeleteLocalRef jParcel],
          rt.DeleteLocalRef jParcel r.2⟩
    else
      ⟨0,
        [.conv, .createJavaParcelObject,
         .ALOGE "legacy2aidl: Failed to create Java parcel" []], c.2⟩

/-! ## The four bindings -/

section Bindings

variable {σ Layout Format : Type}

/-- The binding `aidl2legacy_AudioChannelLayout_Parcel_audio_channel_mask_t` (lines 76-84). -/
def aidl2legacy_AudioChannelLayout_Parcel_audio_channel_mask_t
    (rt : Runtime σ) (PL : Parcelable σ Layout) (lib : AudioLibrary Layout Format)
    (env : σ) (clazz : jobject) (jParcel : jobject) (isInput : Bool) : Run σ Int :=
  aidl2legacy rt PL env clazz jParcel
    (fun l => lib.aidl2legacy_AudioChannelLayout_audio_channel_mask_t l isInput)
    (toInt lib.AUDIO_CHANNEL_INVALID)

/-- The binding `legacy2aidl_audio_channel_mask_t_AudioChannelLayout_Parcel` (lines 86-93). -/
def legacy2aidl_audio_channel_mask_t_AudioChannelLayout_Parcel
    (rt : Runtime σ) (PL : Parcelable σ Layout) (lib : AudioLibrary Layout Format)
    (env : σ) (clazz : jobject) (legacy : Int) (isInput : Bool) : Run σ jobject :=
  legacy2aidl rt PL env clazz (ofInt legacy)
    (fun m => lib.legacy2aidl_audio_channel_mask_t_AudioChannelLayout m isInput)

/-- The binding `aidl2legacy_AudioFormatDescription_Parcel_audio_format_t` (lines 95-102). -/
def aidl2legacy_AudioFormatDescription_Parcel_audio_format_t
    (rt : Runtime σ) (PF : Parcelable σ Format) (lib : AudioLibrary Layout Format)
    (env : σ) (clazz : jobject) (jParcel : jobject) : Run σ Int :=
  aidl2legacy rt PF env clazz jParcel
    lib.aidl2legacy_AudioFormatDescription_audio_format_t
    (toInt lib.AUDIO_FORMAT_INVALID)

/-- The binding `legacy2aidl_audio_format_t_AudioFormatDescription_Parcel` (lines 104-108). -/
def legacy2aidl_audio_format_t_AudioFormatDescription_Parcel
    (rt : Runtime σ) (PF : Parcelable σ Format) (lib : AudioLibrary Layout Format)
    (env : σ) (clazz : jobject) (legacy : Int) : Run σ jobject :=
  legacy2aidl rt PF env clazz (ofInt legacy)
    lib.legacy2aidl_audio_format_t_AudioFormatDescription

end Bindings

/-! ## A sample runtime

A small executable runtime, AIDL type and conversion library, used to run the adapters on
concrete inputs. -/

namespace Sample

/-- A sample parcel: its words and its data position. -/
structure Parcel where
  data : List Int
  pos : Nat
  deriving DecidableEq, Repr

/-- The sample runtime state: the parcels that exist (reference and pointer `k + 1` both denote
the parcel at index `k`), how many parcels may exist, and how many words a parcel may hold. -/
structure Env where
  parcels : List Parcel
  capacity : Nat
  limit : Nat
  deriving DecidableEq, Repr

/-- Apply `f` to the element at index `k`, if there is one. -/
def updateAt (f : Parcel → Parcel) : Nat → List Parcel → List Parcel
  | _, [] => []
  | 0, q :: qs => f q :: qs
  | k + 1, q :: qs => q :: updateAt f k qs

/-- The element at index `k`, if there is one. -/
def lookup {α : Type} : Nat → List α → Option α
  | _, [] => none
  | 0, q :: _ => some q
  | k + 1, _ :: qs => lookup k qs

/-- The sample JNI / Parcel runtime. -/
def runtime : Runtime Env where
  createJavaParcelObject s :=
    if s.parcels.length < s.capacity then
      (s.parcels.length + 1, { s with parcels := s.parcels ++ [⟨[], 0⟩] })
    else (0, s)
  parcelForJavaObject obj s :=
    (if 0 < obj ∧ obj ≤ s.parcels.length then obj else 0, s)
  setDataPosition parcel pos s :=
    { s with parcels := updateAt (fun q => { q with pos := pos }) (parcel - 1) s.parcels }
  DeleteLocalRef _ s := s

/-- The sample AIDL type: one word. Writing fails with `NO_MEMORY` (-12) on a full parcel,
reading fails with `NOT_ENOUGH_DATA` (-61) at the end of the data. -/
def word : Parcelable Env Int where
  init := 0
  readFromParcel a parcel s :=
    match lookup (parcel - 1) s.parcels with
    | none => (-61, a, s)
    | some q =>
      match lookup q.pos q.data with
      | none => (-61, a, s)
      | some v =>
        (0, v, { s with
          parcels := updateAt (fun q => { q with pos := q.pos + 1 }) (parcel - 1) s.parcels })
  writeToParcel a parcel s :=
    match lookup (parcel - 1) s.parcels with
    | none => (-12, s)
    | some q =>
      if q.data.length < s.limit then
        (0, { s with
          parcels :=
            updateAt (fun q => ⟨q.data.take q.pos ++ [a], q.pos + 1⟩) (parcel - 1) s.parcels })
      else (-12, s)

/-- The constant `AUDIO_FORMAT_PCM_16_BIT` of `system/audio.h`. -/
def AUDIO_FORMAT_PCM_16_BIT : audio_format_t := 1

/-- The sample conversion library. A layout word is `2 * mask + (1 if input else 0)`; a format
word is the format code, for the codes 1 to 6. Failures carry `BAD_VALUE` (-22). -/
def lib : AudioLibrary Int Int where
  AUDIO_CHANNEL_INVALID := 3221225472
  AUDIO_FORMAT_INVALID := 4294967295
  aidl2legacy_AudioChannelLayout_audio_channel_mask_t l isInput :=
    if 0 ≤ l ∧ l % 2 = (if isInput then 1 else 0) ∧ l / 2 ≠ 3221225472 then .ok (ofInt (l / 2))
    else .error (-22)
  legacy2aidl_audio_channel_mask_t_AudioChannelLayout m isInput :=
    if m.val ≠ 3221225472 then .ok (2 * (m.val : Int) + (if isInput then 1 else 0))
    else .error (-22)
  aidl2legacy_AudioFormatDescription_audio_format_t a :=
    if 1 ≤ a ∧ a ≤ 6 then .ok (ofInt a) else .error (-22)
  legacy2aidl_audio_format_t_AudioFormatDescription f :=
    if 1 ≤ f.val ∧ f.val ≤ 6 then .ok (f.val : Int) else .error (-22)

/-- A state with no parcel yet, room for four, eight words each. -/
def env0 : Env := ⟨[], 4, 8⟩

/-- A state that cannot create any parcel. -/
def envFull : Env := ⟨[], 0, 8⟩

/-- A state whose parcels cannot hold any word. -/
def envTiny : Env := ⟨[], 4, 0⟩

/-- A state with one parcel holding the word 1, positioned at its start. -/
def env1 : Env := ⟨[⟨[1], 0⟩], 4, 8⟩

/-- A state with one empty parcel. -/
def envEmpty : Env := ⟨[⟨[], 0⟩], 4, 8⟩

/-- A state with one parcel holding the word 9, which is no format word. -/
def env9 : Env := ⟨[⟨[9], 0⟩], 4, 8⟩

/-- A runtime whose `createJavaParcelObject` hands out a reference without a native parcel. -/
def runtimeNoNative : Runtime Env :=
  { runtime with createJavaParcelObject := fun s => (7, s) }

end Sample

/-! ## Conversions between `int` and the unsigned enums -/

/-- An `int` survives the cast to an unsigned 32-bit enum and back. -/
theorem toInt_ofInt (i : Int) (h : isInt32 i) : toInt (ofInt i) = i := by
  unfold isInt32 at h
  unfold toInt ofInt
  simp only
  split <;> omega

/-! ## The inbound adapter -/

section Inbound

variable {σ A : Type} (rt : Runtime σ) (P : Parcelable σ A)

/-- C1. Return value of `aidl2legacy`. Let `parcel` be what the handle resolves to and
`(status, aidl)` what `readFromParcel` yields on it. If `parcel` is non-null, `status` is `OK`
and `conv aidl` is ok with scalar `value`, the adapter returns `value` (as an `int`); in every
other case (null `parcel`, `status` other than `OK`, `conv aidl` not ok) it returns exactly
`fallbackValue`. The adapter is a total function of its inputs. -/
theorem aidl2legacy_ret (env : σ) (clazz jParcel : jobject)
    (conv : A → ConversionResult uint32_t) (fallbackValue : Int)
    (parcel : ParcelPtr) (env1 : σ) (status : status_t) (aidl : A) (env2 : σ)
    (hres : rt.parcelForJavaObject jParcel env = (parcel, env1))
    (hread : P.readFromParcel P.init parcel env1 = (status, aidl, env2)) :
    (∀ value, parcel ≠ 0 → status = OK → conv aidl = .ok value →
      (aidl2legacy rt P env clazz jParcel conv fallbackValue).ret = toInt value) ∧
    (parcel = 0 ∨ status ≠ OK ∨ (∃ e, conv aidl = .error e) →
      (aidl2legacy rt P env clazz jParcel conv fallbackValue).ret = fallbackValue) := by
  refine ⟨?_, ?_⟩
  · intro value hp hs hc
    simp [aidl2legacy, hres, hread, hp, hs, hc]
  · rintro (hp | hs | ⟨e, hc⟩)
    · simp [aidl2legacy, hres, hp]
    · by_cases hp : parcel = 0
      · simp [aidl2legacy, hres, hp]
      · simp [aidl2legacy, hres, hread, hp, hs]
    · by_cases hp : parcel = 0
      · simp [aidl2legacy, hres, hp]
      · by_cases hs : status = OK
        · simp [aidl2legacy, hres, hread, hp, hs, hc]
        · simp [aidl2legacy, hres, hread, hp, hs]

/-- C7. Calls made by `aidl2legacy`. (i) If the handle does not resolve, the adapter makes the
lookup and logs one diagnostic, and nothing else: apart from the lookup the trace is that one
diagnostic, there is no read and no `conv`, and the state is the one the lookup left. (ii) If the
handle resolves and `readFromParcel` returns a status other than `OK`, the trace is the lookup,
the read, and one diagnostic carrying that status; `conv` is not invoked. (iii) If the read
returns `OK`, the trace is the lookup, the read and one `conv`, with no diagnostic, whatever
`conv` returns. In (ii) and (iii) the state is the one the read left. -/
theorem aidl2legacy_trace (env : σ) (clazz jParcel : jobject)
    (conv : A → ConversionResult uint32_t) (fallbackValue : Int)
    (parcel : ParcelPtr) (env1 : σ) (status : status_t) (aidl : A) (env2 : σ)
    (hres : rt.parcelForJavaObject jParcel env = (parcel, env1))
    (hread : P.readFromParcel P.init parcel env1 = (status, aidl, env2)) :
    (parcel = 0 →
      (aidl2legacy rt P env clazz jParcel conv fallbackValue).trace =
        [.parcelForJavaObject jParcel,
         .ALOGE "aidl2legacy: Failed to retrieve the native parcel from Java parcel" []] ∧
      (aidl2legacy rt P env clazz jParcel conv fallbackValue).trace.filter
          (fun c => !c.isResolve) =
        [.ALOGE "aidl2legacy: Failed to retrieve the native parcel from Java parcel" []] ∧
      (aidl2legacy rt P env clazz jParcel conv fallbackValue).trace.countP Call.isLog = 1 ∧
      (aidl2legacy rt P env clazz jParcel conv fallbackValue).trace.countP Call.isRead = 0 ∧
      (aidl2legacy rt P env clazz jParcel conv fallbackValue).trace.countP Call.isConv = 0 ∧
      (aidl2legacy rt P env clazz jParcel conv fallbackValue).env = env1) ∧
    (parcel ≠ 0 → status ≠ OK →
      (aidl2legacy rt P env clazz jParcel conv fallbackValue).trace =
        [.parcelForJavaObject jParcel, .readFromParcel parcel,
         .ALOGE "aidl2legacy: Failed to read from parcel: %d" [status]] ∧
      (aidl2legacy rt P env clazz jParcel conv fallbackValue).trace.filter
          (fun c => !c.isResolve) =
        [.readFromParcel parcel, .ALOGE "aidl2legacy: Failed to read from parcel: %d" [status]] ∧
      (aidl2legacy rt P env clazz jParcel conv fallbackValue).trace.countP Call.isLog = 1 ∧
      (aidl2legacy rt P env clazz jParcel conv fallbackValue).trace.countP Call.isConv = 0 ∧
      (aidl2legacy rt P env clazz jParcel conv fallbackValue).env = env2) ∧
    (parcel ≠ 0 → status = OK →
      (aidl2legacy rt P env clazz jParcel conv fallbackValue).trace =
        [.parcelForJavaObject jParcel, .readFromParcel parcel, .conv] ∧
      (aidl2legacy rt P env clazz jParcel conv fallbackValue).trace.countP Call.isLog = 0 ∧
      (aidl2legacy rt P env clazz jParcel conv fallbackValue).trace.countP Call.isConv = 1 ∧
      (aidl2legacy rt P env clazz jParcel conv fallbackValue).env = env2) := by
  refine ⟨?_, ?_, ?_⟩
  · intro hp
    simp [aidl2legacy, hres, hp, Call.isLog, Call.isRead, Call.isConv, Call.isResolve]
  · intro hp hs
    simp [aidl2legacy, hres, hread, hp, hs, Call.isLog, Call.isConv, Call.isResolve]
  · intro hp hs
    cases hc : conv aidl <;>
      simp [aidl2legacy, hres, hread, hp, hs, hc, Call.isLog, Call.isConv]

end Inbound

/-! ## The outbound adapter -/

section Outbound

variable {σ A L : Type} (rt : Runtime σ) (P : Parcelable σ A)

/-- C4. Outbound guarantee. Whenever `legacy2aidl` returns a non-null handle, `conv legacy` is ok
with some `value`, the handle is the reference `createJavaParcelObject` returned in this call,
it resolved to a non-null parcel, `writeToParcel` of `value` into that parcel returned `OK`, and
the last call is `setDataPosition(0)` on that parcel: the state left is the state after the write
with the position set to 0, so every position observer that reads back what `setDataPosition`
sets gives 0. -/
theorem legacy2aidl_nonnull (env : σ) (clazz : jobject) (legacy : L)
    (conv : L → ConversionResult A)
    (jParcel : jobject) (env1 : σ) (parcel : ParcelPtr) (env2 : σ)
    (hcreate : rt.createJavaParcelObject env = (jParcel, env1))
    (hres : rt.parcelForJavaObject jParcel env1 = (parcel, env2))
    (hret : (legacy2aidl rt P env clazz legacy conv).ret ≠ 0) :
    ∃ value env3,
      conv legacy = .ok value ∧
      (legacy2aidl rt P env clazz legacy conv).ret = jParcel ∧
      jParcel ≠ 0 ∧ parcel ≠ 0 ∧
      P.writeToParcel value parcel env2 = (OK, env3) ∧
      (legacy2aidl rt P env clazz legacy conv).env = rt.setDataPosition parcel 0 env3 ∧
      (legacy2aidl rt P env clazz legacy conv).trace.getLast? =
        some (.setDataPosition parcel 0) ∧
      (legacy2aidl rt P env clazz legacy conv).trace.countP Call.isDelete = 0 ∧
      ∀ dataPosition : σ → ParcelPtr → Nat,
        (∀ p n s, dataPosition (rt.setDataPosition p n s) p = n) →
        dataPosition (legacy2aidl rt P env clazz legacy conv).env parcel = 0 := by
  cases hc : conv legacy with
  | error e => simp [legacy2aidl, hc] at hret
  | ok value =>
    by_cases hj : jParcel = 0
    · simp [legacy2aidl, hc, hcreate, hj] at hret
    · by_cases hp : parcel = 0
      · simp [legacy2aidl, hc, hcreate, hres, hj, hp] at hret
      · by_cases hs : (P.writeToParcel value parcel env2).1 = OK
        · refine ⟨value, (P.writeToParcel value parcel env2).2, rfl, ?_, hj, hp, ?_, ?_, ?_, ?_, ?_⟩
          · simp [legacy2aidl, hc, hcreate, hres, hj, hp, hs]
          · exact Prod.ext hs rfl
          · simp [legacy2aidl, hc, hcreate, hres, hj, hp, hs]
          · simp [legacy2aidl, hc, hcreate, hres, hj, hp, hs]
          · simp [legacy2aidl, hc, hcreate, hres, hj, hp, hs, Call.isDelete]
          · intro dataPosition hlaw
            simp [legacy2aidl, hc, hcreate, hres, hj, hp, hs, hlaw]
        · simp [legacy2aidl, hc, hcreate, hres, hj, hp, hs] at hret

/-- C5. Outbound conversion failure. If `conv legacy` is not ok, `legacy2aidl` returns the null
handle, its only call is the one to `conv`, and the state is untouched:
`createJavaParcelObject`, `parcelForJavaObject`, `writeToParcel` and `DeleteLocalRef` are each
invoked zero times. -/
theorem legacy2aidl_conv_error (env : σ) (clazz : jobject) (legacy : L)
    (conv : L → ConversionResult A) (e : status_t) (hconv : conv legacy = .error e) :
    (legacy2aidl rt P env clazz legacy conv).ret = 0 ∧
    (legacy2aidl rt P env clazz legacy conv).trace = [.conv] ∧
    (legacy2aidl rt P env clazz legacy conv).env = env ∧
    (legacy2aidl rt P env clazz legacy conv).trace.countP Call.isCreate = 0 ∧
    (legacy2aidl rt P env clazz legacy conv).trace.countP Call.isResolve = 0 ∧
    (legacy2aidl rt P env clazz legacy conv).trace.countP Call.isWrite = 0 ∧
    (legacy2aidl rt P env clazz legacy conv).trace.countP Call.isDelete = 0 := by
  simp [legacy2aidl, hconv, Call.isCreate, Call.isResolve, Call.isWrite, Call.isDelete]

/-- C6. Outbound buffer ownership. In a run of `legacy2aidl` that created a buffer (`conv legacy`
ok, `createJavaParcelObject` returned the non-null `jParcel`), either the run succeeds (the
reference resolves and the write returns `OK`), and then `jParcel` is returned and
`DeleteLocalRef` is never called; or it fails (the reference resolves to null, or the write
returns a status other than `OK`), and then null is returned, `DeleteLocalRef jParcel` is called
exactly once, as the last call and the only release. A buffer whose write failed is not
returned. Exactly one buffer is created either way. -/
theorem legacy2aidl_ownership (env : σ) (clazz : jobject) (legacy : L)
    (conv : L → ConversionResult A) (value : A)
    (jParcel : jobject) (env1 : σ) (parcel : ParcelPtr) (env2 : σ)
    (status : status_t) (env3 : σ)
    (hconv : conv legacy = .ok value)
    (hcreate : rt.createJavaParcelObject env = (jParcel, env1))
    (hj : jParcel ≠ 0)
    (hres : rt.parcelForJavaObject jParcel env1 = (parcel, env2))
    (hwrite : P.writeToParcel value parcel env2 = (status, env3)) :
    (legacy2aidl rt P env clazz legacy conv).trace.countP Call.isCreate = 1 ∧
    (parcel ≠ 0 ∧ status = OK →
      (legacy2aidl rt P env clazz legacy conv).ret = jParcel ∧
      (legacy2aidl rt P env clazz legacy conv).trace.countP Call.isDelete = 0) ∧
    (parcel = 0 ∨ status ≠ OK →
      (legacy2aidl rt P env clazz legacy conv).ret = 0 ∧
      (legacy2aidl rt P env clazz legacy conv).ret ≠ jParcel ∧
      (legacy2aidl rt P env clazz legacy conv).trace.countP Call.isDelete = 1 ∧
      (legacy2aidl rt P env clazz legacy conv).trace.getLast? =
        some (.DeleteLocalRef jParcel) ∧
      (legacy2aidl rt P env clazz legacy conv).env =
        rt.DeleteLocalRef jParcel (if parcel = 0 then env2 else env3)) := by
  by_cases hp : parcel = 0
  · simp [legacy2aidl, hconv, hcreate, hres, hj, hp, Call.isCreate, Call.isDelete]
    exact fun h => hj h.symm
  · by_cases hs : status = OK
    · simp [legacy2aidl, hconv, hcreate, hres, hwrite, hj, hp, hs, Call.isCreate,
        Call.isDelete]
    · simp [legacy2aidl, hconv, hcreate, hres, hwrite, hj, hp, hs, Call.isCreate,
        Call.isDelete]
      exact fun h => hj h.symm

/-- C10. Result of `legacy2aidl`. The adapter returns a non-null handle if and only if `conv
legacy` is ok, `createJavaParcelObject` returns non-null, `parcelForJavaObject` on that reference
returns non-null, and `writeToParcel` returns `OK`. `conv` is invoked exactly once; the buffer is
created only if `conv` was ok, resolved only if moreover it was created, written only if
moreover it resolved, and each at most once. When `conv` is ok and creation fails, the adapter
returns null, logs exactly one diagnostic, and calls neither `parcelForJavaObject`,
`writeToParcel` nor `DeleteLocalRef`. -/
theorem legacy2aidl_characterisation (env : σ) (clazz : jobject) (legacy : L)
    (conv : L → ConversionResult A)
    (jParcel : jobject) (env1 : σ) (parcel : ParcelPtr) (env2 : σ)
    (hcreate : rt.createJavaParcelObject env = (jParcel, env1))
    (hres : rt.parcelForJavaObject jParcel env1 = (parcel, env2)) :
    ((legacy2aidl rt P env clazz legacy conv).ret ≠ 0 ↔
      ∃ value, conv legacy = .ok value ∧ jParcel ≠ 0 ∧ parcel ≠ 0 ∧
        (P.writeToParcel value parcel env2).1 = OK) ∧
    (legacy2aidl rt P env clazz legacy conv).trace.countP Call.isConv = 1 ∧
    ((legacy2aidl rt P env clazz legacy conv).trace.countP Call.isCreate =
        1 ↔ ∃ value, conv legacy = .ok value) ∧
    ((legacy2aidl rt P env clazz legacy conv).trace.countP Call.isResolve =
        1 ↔ (∃ value, conv legacy = .ok value) ∧ jParcel ≠ 0) ∧
    ((legacy2aidl rt P env clazz legacy conv).trace.countP Call.isWrite =
        1 ↔ (∃ value, conv legacy = .ok value) ∧ jParcel ≠ 0 ∧ parcel ≠ 0) ∧
    (legacy2aidl rt P env clazz legacy conv).trace.countP Call.isCreate ≤ 1 ∧
    (legacy2aidl rt P env clazz legacy conv).trace.countP Call.isResolve ≤ 1 ∧
    (legacy2aidl rt P env clazz legacy conv).trace.countP Call.isWrite ≤ 1 ∧
    ((∃ value, conv legacy = .ok value) → jParcel = 0 →
      (legacy2aidl rt P env clazz legacy conv).ret = 0 ∧
      (legacy2aidl rt P env clazz legacy conv).trace =
        [.conv, .createJavaParcelObject,
         .ALOGE "legacy2aidl: Failed to create Java parcel" []] ∧
      (legacy2aidl rt P env clazz legacy conv).trace.countP Call.isLog = 1 ∧
      (legacy2aidl rt P env clazz legacy conv).trace.countP Call.isResolve = 0 ∧
      (legacy2aidl rt P env clazz legacy conv).trace.countP Call.isWrite = 0 ∧
      (legacy2aidl rt P env clazz legacy conv).trace.countP Call.isDelete = 0 ∧
      (legacy2aidl rt P env clazz legacy conv).env = env1) := by
  cases hc : conv legacy with
  | error e =>
    simp [legacy2aidl, hc, Call.isConv, Call.isCreate, Call.isResolve, Call.isWrite]
  | ok value =>
    by_cases hj : jParcel = 0
    · simp [legacy2aidl, hc, hcreate, hj, Call.isConv, Call.isCreate, Call.isResolve,
        Call.isWrite, Call.isLog, Call.isDelete]
    · by_cases hp : parcel = 0
      · simp [legacy2aidl, hc, hcreate, hres, hj, hp, Call.isConv, Call.isCreate,
          Call.isResolve, Call.isWrite]
      · by_cases hs : (P.writeToParcel value parcel env2).1 = OK
        · simp [legacy2aidl, hc, hcreate, hres, hj, hp, hs, Call.isConv, Call.isCreate,
            Call.isResolve, Call.isWrite]
        · simp [legacy2aidl, hc, hcreate, hres, hj, hp, hs, Call.isConv, Call.isCreate,
            Call.isResolve, Call.isWrite]

end Outbound

/-! ## Failure handling across both adapters -/

section Failures

variable {σ A B L : Type} (rt : Runtime σ) (P : Parcelable σ A) (Q : Parcelable σ B)

/-- C9, as the claim states it, fails: in the sample runtime the parcel of reference 1 holds the
word 9, the read succeeds, the format conversion rejects 9, and `aidl2legacy` returns the
sentinel without logging any diagnostic. -/
theorem conversion_failure_not_logged :
    (Sample.runtime.parcelForJavaObject 1 Sample.env9).1 = 1 ∧
    (Sample.word.readFromParcel Sample.word.init 1 Sample.env9).1 = OK ∧
    Sample.lib.aidl2legacy_AudioFormatDescription_audio_format_t
      (Sample.word.readFromParcel Sample.word.init 1 Sample.env9).2.1 = .error (-22) ∧
    (aidl2legacy Sample.runtime Sample.word Sample.env9 0 1
      Sample.lib.aidl2legacy_AudioFormatDescription_audio_format_t
      (toInt Sample.lib.AUDIO_FORMAT_INVALID)).ret = toInt Sample.lib.AUDIO_FORMAT_INVALID ∧
    ¬ ∃ c ∈ (aidl2legacy Sample.runtime Sample.word Sample.env9 0 1
      Sample.lib.aidl2legacy_AudioFormatDescription_audio_format_t
      (toInt Sample.lib.AUDIO_FORMAT_INVALID)).trace, c.isLog = true := by
  refine ⟨rfl, rfl, rfl, rfl, ?_⟩
  decide

/-- C9, amended. Every failure makes `aidl2legacy` return the fallback scalar and `legacy2aidl`
return the null handle; both are total, so nothing is raised. Exactly one diagnostic is logged
when the handle does not resolve (either adapter), when the read fails (`aidl2legacy`) and when
the buffer cannot be created (`legacy2aidl`). When the conversion function is not ok, neither
adapter logs anything. -/
theorem failure_handling
    (env : σ) (clazz jParcel : jobject) (convIn : A → ConversionResult uint32_t)
    (fallbackValue : Int)
    (parcel : ParcelPtr) (env1 : σ) (status : status_t) (aidl : A) (env2 : σ)
    (hres : rt.parcelForJavaObject jParcel env = (parcel, env1))
    (hread : P.readFromParcel P.init parcel env1 = (status, aidl, env2))
    (envO : σ) (legacy : L) (convOut : L → ConversionResult B)
    (jNew : jobject) (envO1 : σ) (parcelO : ParcelPtr) (envO2 : σ)
    (hcreate : rt.createJavaParcelObject envO = (jNew, envO1))
    (hresO : rt.parcelForJavaObject jNew envO1 = (parcelO, envO2)) :
    (parcel = 0 →
      (aidl2legacy rt P env clazz jParcel convIn fallbackValue).ret = fallbackValue ∧
      (aidl2legacy rt P env clazz jParcel convIn fallbackValue).trace.countP Call.isLog = 1) ∧
    (parcel ≠ 0 → status ≠ OK →
      (aidl2legacy rt P env clazz jParcel convIn fallbackValue).ret = fallbackValue ∧
      (aidl2legacy rt P env clazz jParcel convIn fallbackValue).trace.countP Call.isLog = 1) ∧
    (parcel ≠ 0 → status = OK → (∃ e, convIn aidl = .error e) →
      (aidl2legacy rt P env clazz jParcel convIn fallbackValue).ret = fallbackValue ∧
      (aidl2legacy rt P env clazz jParcel convIn fallbackValue).trace.countP Call.isLog = 0) ∧
    ((∃ e, convOut legacy = .error e) →
      (legacy2aidl rt Q envO clazz legacy convOut).ret = 0 ∧
      (legacy2aidl rt Q envO clazz legacy convOut).trace.countP Call.isLog = 0) ∧
    ((∃ value, convOut legacy = .ok value) → jNew = 0 →
      (legacy2aidl rt Q envO clazz legacy convOut).ret = 0 ∧
      (legacy2aidl rt Q envO clazz legacy convOut).trace.countP Call.isLog = 1) ∧
    ((∃ value, convOut legacy = .ok value) → jNew ≠ 0 → parcelO = 0 →
      (legacy2aidl rt Q envO clazz legacy convOut).ret = 0 ∧
      (legacy2aidl rt Q envO clazz legacy convOut).trace.countP Call.isLog = 1) ∧
    (∀ value, convOut legacy = .ok value → jNew ≠ 0 → parcelO ≠ 0 →
      (Q.writeToParcel value parcelO envO2).1 ≠ OK →
      (legacy2aidl rt Q envO clazz legacy convOut).ret = 0) := by
  refine ⟨?_, ?_, ?_, ?_, ?_, ?_, ?_⟩
  · intro hp
    simp [aidl2legacy, hres, hp, Call.isLog]
  · intro hp hs
    simp [aidl2legacy, hres, hread, hp, hs, Call.isLog]
  · rintro hp hs ⟨e, hc⟩
    simp [aidl2legacy, hres, hread, hp, hs, hc, Call.isLog]
  · rintro ⟨e, hc⟩
    simp [legacy2aidl, hc, Call.isLog]
  · rintro ⟨value, hc⟩ hj
    simp [legacy2aidl, hc, hcreate, hj, Call.isLog]
  · rintro ⟨value, hc⟩ hj hp
    simp [legacy2aidl, hc, hcreate, hresO, hj, hp, Call.isLog]
  · intro value hc hj hp hs
    simp [legacy2aidl, hc, hcreate, hresO, hj, hp, hs]

end Failures

/-! ## The bindings -/

section BindingTheorems

variable {σ Layout Format : Type} (rt : Runtime σ)
  (PL : Parcelable σ Layout) (PF : Parcelable σ Format) (lib : AudioLibrary Layout Format)

/-- C8. The four bindings are the generic adapters instantiated with the library conversions:
the channel-mask decoder is `aidl2legacy` with the library conversion at the same `isInput` and
fallback `AUDIO_CHANNEL_INVALID`; the format decoder is `aidl2legacy` with the library format
conversion and fallback `AUDIO_FORMAT_INVALID`; the encoders are `legacy2aidl` on the scalar cast
to its enum, with the library conversion (at the same `isInput` for channel masks). Hence, on a
runtime where the null handle resolves to no parcel, decoding the null handle returns
`AUDIO_FORMAT_INVALID`, respectively `AUDIO_CHANNEL_INVALID`, with exactly one diagnostic. -/
theorem bindings_instantiate (env : σ) (clazz jParcel : jobject) (legacy : Int)
    (isInput : Bool) :
    aidl2legacy_AudioChannelLayout_Parcel_audio_channel_mask_t rt PL lib env clazz jParcel
        isInput =
      aidl2legacy rt PL env clazz jParcel
        (fun l => lib.aidl2legacy_AudioChannelLayout_audio_channel_mask_t l isInput)
        (toInt lib.AUDIO_CHANNEL_INVALID) ∧
    aidl2legacy_AudioFormatDescription_Parcel_audio_format_t rt PF lib env clazz jParcel =
      aidl2legacy rt PF env clazz jParcel
        lib.aidl2legacy_AudioFormatDescription_audio_format_t
        (toInt lib.AUDIO_FORMAT_INVALID) ∧
    legacy2aidl_audio_channel_mask_t_AudioChannelLayout_Parcel rt PL lib env clazz legacy
        isInput =
      legacy2aidl rt PL env clazz (ofInt legacy)
        (fun m => lib.legacy2aidl_audio_channel_mask_t_AudioChannelLayout m isInput) ∧
    legacy2aidl_audio_format_t_AudioFormatDescription_Parcel rt PF lib env clazz legacy =
      legacy2aidl rt PF env clazz (ofInt legacy)
        lib.legacy2aidl_audio_format_t_AudioFormatDescription ∧
    ((rt.parcelForJavaObject 0 env).1 = 0 →
      (aidl2legacy_AudioFormatDescription_Parcel_audio_format_t rt PF lib env clazz 0).ret =
        toInt lib.AUDIO_FORMAT_INVALID ∧
      (aidl2legacy_AudioFormatDescription_Parcel_audio_format_t rt PF lib env clazz
        0).trace.countP Call.isLog = 1 ∧
      (aidl2legacy_AudioChannelLayout_Parcel_audio_channel_mask_t rt PL lib env clazz 0
        isInput).ret = toInt lib.AUDIO_CHANNEL_INVALID ∧
      (aidl2legacy_AudioChannelLayout_Parcel_audio_channel_mask_t rt PL lib env clazz 0
        isInput).trace.countP Call.isLog = 1) := by
  refine ⟨rfl, rfl, rfl, rfl, ?_⟩
  intro h0
  simp [aidl2legacy_AudioFormatDescription_Parcel_audio_format_t,
    aidl2legacy_AudioChannelLayout_Parcel_audio_channel_mask_t, aidl2legacy, h0, Call.isLog]

/-- C2. Format round trip. Let `legacy` be an `int` whose format code the library converts to
`aidl` and converts `aidl` back to. Suppose the parcel is created (non-null reference), the
reference resolves to a non-null parcel, the write of `aidl` returns `OK`, the returned reference
again resolves to a non-null parcel when decoding, and reading that parcel, rewound to position
0, yields `OK` and `aidl`. Then the encoder returns the created reference and the decoder applied
to it returns `legacy`. -/
theorem format_round_trip (env : σ) (clazz : jobject) (legacy : Int) (hint : isInt32 legacy)
    (aidl : Format)
    (hl2a : lib.legacy2aidl_audio_format_t_AudioFormatDescription (ofInt legacy) = .ok aidl)
    (ha2l : lib.aidl2legacy_AudioFormatDescription_audio_format_t aidl = .ok (ofInt legacy))
    (jParcel : jobject) (env1 : σ) (parcel : ParcelPtr) (env2 env3 : σ)
    (hcreate : rt.createJavaParcelObject env = (jParcel, env1)) (hj : jParcel ≠ 0)
    (hres : rt.parcelForJavaObject jParcel env1 = (parcel, env2)) (hp : parcel ≠ 0)
    (hwrite : PF.writeToParcel aidl parcel env2 = (OK, env3))
    (parcel2 : ParcelPtr) (env4 env5 : σ)
    (hres2 : rt.parcelForJavaObject jParcel (rt.setDataPosition parcel 0 env3) =
      (parcel2, env4))
    (hp2 : parcel2 ≠ 0)
    (hread : PF.readFromParcel PF.init parcel2 env4 = (OK, aidl, env5)) :
    (legacy2aidl_audio_format_t_AudioFormatDescription_Parcel rt PF lib env clazz legacy).ret =
      jParcel ∧
    (aidl2legacy_AudioFormatDescription_Parcel_audio_format_t rt PF lib
      (legacy2aidl_audio_format_t_AudioFormatDescription_Parcel rt PF lib env clazz legacy).env
      clazz
      (legacy2aidl_audio_format_t_AudioFormatDescription_Parcel rt PF lib env clazz
        legacy).ret).ret = legacy := by
  have henc : legacy2aidl_audio_format_t_AudioFormatDescription_Parcel rt PF lib env clazz
      legacy = ⟨jParcel, [.conv, .createJavaParcelObject, .parcelForJavaObject jParcel,
        .writeToParcel parcel, .setDataPosition parcel 0], rt.setDataPosition parcel 0 env3⟩ := by
    simp [legacy2aidl_audio_format_t_AudioFormatDescription_Parcel, legacy2aidl, hl2a, hcreate,
      hres, hwrite, hj, hp]
  rw [henc]
  simp [aidl2legacy_AudioFormatDescription_Parcel_audio_format_t, aidl2legacy, hres2, hread,
    hp2, ha2l, toInt_ofInt legacy hint]

/-- C3. Channel-mask round trip. Let `legacy` be an `int` whose mask the library converts, for
the flag `isInput`, to `aidl` and converts `aidl` back to with the same flag. Suppose the parcel
is created (non-null reference), the reference resolves to a non-null parcel, the write of `aidl`
returns `OK`, the returned reference again resolves to a non-null parcel when decoding, and
reading that parcel, rewound to position 0, yields `OK` and `aidl`. Then the encoder returns the
created reference and the decoder applied to it with the same flag returns `legacy`, also when
`legacy` is negative (top bit set). -/
theorem channel_mask_round_trip (env : σ) (clazz : jobject) (legacy : Int) (isInput : Bool)
    (hint : isInt32 legacy) (aidl : Layout)
    (hl2a : lib.legacy2aidl_audio_channel_mask_t_AudioChannelLayout (ofInt legacy) isInput =
      .ok aidl)
    (ha2l : lib.aidl2legacy_AudioChannelLayout_audio_channel_mask_t aidl isInput =
      .ok (ofInt legacy))
    (jParcel : jobject) (env1 : σ) (parcel : ParcelPtr) (env2 env3 : σ)
    (hcreate : rt.createJavaParcelObject env = (jParcel, env1)) (hj : jParcel ≠ 0)
    (hres : rt.parcelForJavaObject jParcel env1 = (parcel, env2)) (hp : parcel ≠ 0)
    (hwrite : PL.writeToParcel aidl parcel env2 = (OK, env3))
    (parcel2 : ParcelPtr) (env4 env5 : σ)
    (hres2 : rt.parcelForJavaObject jParcel (rt.setDataPosition parcel 0 env3) =
      (parcel2, env4))
    (hp2 : parcel2 ≠ 0)
    (hread : PL.readFromParcel PL.init parcel2 env4 = (OK, aidl, env5)) :
    (legacy2aidl_audio_channel_mask_t_AudioChannelLayout_Parcel rt PL lib env clazz legacy
      isInput).ret = jParcel ∧
    (aidl2legacy_AudioChannelLayout_Parcel_audio_channel_mask_t rt PL lib
      (legacy2aidl_audio_channel_mask_t_AudioChannelLayout_Parcel rt PL lib env clazz legacy
        isInput).env
      clazz
      (legacy2aidl_audio_channel_mask_t_AudioChannelLayout_Parcel rt PL lib env clazz legacy
        isInput).ret isInput).ret = legacy := by
  have henc : legacy2aidl_audio_channel_mask_t_AudioChannelLayout_Parcel rt PL lib env clazz
      legacy isInput = ⟨jParcel, [.conv, .createJavaParcelObject, .parcelForJavaObject jParcel,
        .writeToParcel parcel, .setDataPosition parcel 0], rt.setDataPosition parcel 0 env3⟩ := by
    simp [legacy2aidl_audio_channel_mask_t_AudioChannelLayout_Parcel, legacy2aidl, hl2a,
      hcreate, hres, hwrite, hj, hp]
  rw [henc]
  simp [aidl2legacy_AudioChannelLayout_Parcel_audio_channel_mask_t, aidl2legacy, hres2, hread,
    hp2, ha2l, toInt_ofInt legacy hint]

end BindingTheorems

/-! ## The theorems at concrete inputs -/

section Witnesses

open Sample

/-- The theorem `aidl2legacy_ret` on the sample runtime: a parcel holding the format word 1
decodes to 1; a parcel holding the word 9, an empty parcel, and a reference without parcel all
decode to the fallback. -/
theorem aidl2legacy_ret_witness :
    (aidl2legacy runtime word env1 0 1
      lib.aidl2legacy_AudioFormatDescription_audio_format_t (-1)).ret = toInt 1 ∧
    (aidl2legacy runtime word env9 0 1
      lib.aidl2legacy_AudioFormatDescription_audio_format_t (-1)).ret = -1 ∧
    (aidl2legacy runtime word envEmpty 0 1
      lib.aidl2legacy_AudioFormatDescription_audio_format_t (-1)).ret = -1 ∧
    (aidl2legacy runtime word env0 0 1
      lib.aidl2legacy_AudioFormatDescription_audio_format_t (-1)).ret = -1 :=
  ⟨(aidl2legacy_ret runtime word env1 0 1
      lib.aidl2legacy_AudioFormatDescription_audio_format_t (-1)
      1 env1 0 1 ⟨[⟨[1], 1⟩], 4, 8⟩ rfl rfl).1 1 (by decide) rfl rfl,
   (aidl2legacy_ret runtime word env9 0 1
      lib.aidl2legacy_AudioFormatDescription_audio_format_t (-1)
      1 env9 0 9 ⟨[⟨[9], 1⟩], 4, 8⟩ rfl rfl).2 (Or.inr (Or.inr ⟨-22, rfl⟩)),
   (aidl2legacy_ret runtime word envEmpty 0 1
      lib.aidl2legacy_AudioFormatDescription_audio_format_t (-1)
      1 envEmpty (-61) 0 envEmpty rfl rfl).2 (Or.inr (Or.inl (by decide))),
   (aidl2legacy_ret runtime word env0 0 1
      lib.aidl2legacy_AudioFormatDescription_audio_format_t (-1)
      0 env0 (-61) 0 env0 rfl rfl).2 (Or.inl rfl)⟩

/-- The theorem `aidl2legacy_trace` on the sample runtime, one run for each of its three
cases. -/
theorem aidl2legacy_trace_witness :
    (aidl2legacy runtime word env0 0 1
      lib.aidl2legacy_AudioFormatDescription_audio_format_t (-1)).trace =
      [.parcelForJavaObject 1,
       .ALOGE "aidl2legacy: Failed to retrieve the native parcel from Java parcel" []] ∧
    (aidl2legacy runtime word envEmpty 0 1
      lib.aidl2legacy_AudioFormatDescription_audio_format_t (-1)).trace =
      [.parcelForJavaObject 1, .readFromParcel 1,
       .ALOGE "aidl2legacy: Failed to read from parcel: %d" [-61]] ∧
    (aidl2legacy runtime word env9 0 1
      lib.aidl2legacy_AudioFormatDescription_audio_format_t (-1)).trace =
      [.parcelForJavaObject 1, .readFromParcel 1, .conv] :=
  ⟨((aidl2legacy_trace runtime word env0 0 1
      lib.aidl2legacy_AudioFormatDescription_audio_format_t (-1)
      0 env0 (-61) 0 env0 rfl rfl).1 rfl).1,
   ((aidl2legacy_trace runtime word envEmpty 0 1
      lib.aidl2legacy_AudioFormatDescription_audio_format_t (-1)
      1 envEmpty (-61) 0 envEmpty rfl rfl).2.1 (by decide) (by decide)).1,
   ((aidl2legacy_trace runtime word env9 0 1
      lib.aidl2legacy_AudioFormatDescription_audio_format_t (-1)
      1 env9 0 9 ⟨[⟨[9], 1⟩], 4, 8⟩ rfl rfl).2.2 (by decide) rfl).1⟩

/-- The theorem `legacy2aidl_nonnull` on the sample runtime: encoding the format code 1 returns
the reference 1, whose parcel holds the word 1 at position 0. -/
theorem legacy2aidl_nonnull_witness :
    (legacy2aidl runtime word env0 0 (1 : audio_format_t)
      lib.legacy2aidl_audio_format_t_AudioFormatDescription).ret ≠ 0 ∧
    ∃ value env3,
      lib.legacy2aidl_audio_format_t_AudioFormatDescription 1 = .ok value ∧
      (legacy2aidl runtime word env0 0 (1 : audio_format_t)
        lib.legacy2aidl_audio_format_t_AudioFormatDescription).ret = 1 ∧
      (1 : jobject) ≠ 0 ∧ (1 : ParcelPtr) ≠ 0 ∧
      word.writeToParcel value 1 ⟨[⟨[], 0⟩], 4, 8⟩ = (OK, env3) ∧
      (legacy2aidl runtime word env0 0 (1 : audio_format_t)
        lib.legacy2aidl_audio_format_t_AudioFormatDescription).env =
        runtime.setDataPosition 1 0 env3 ∧
      (legacy2aidl runtime word env0 0 (1 : audio_format_t)
        lib.legacy2aidl_audio_format_t_AudioFormatDescription).trace.getLast? =
        some (.setDataPosition 1 0) ∧
      (legacy2aidl runtime word env0 0 (1 : audio_format_t)
        lib.legacy2aidl_audio_format_t_AudioFormatDescription).trace.countP Call.isDelete = 0 ∧
      ∀ dataPosition : Env → ParcelPtr → Nat,
        (∀ p n s, dataPosition (runtime.setDataPosition p n s) p = n) →
        dataPosition (legacy2aidl runtime word env0 0 (1 : audio_format_t)
          lib.legacy2aidl_audio_format_t_AudioFormatDescription).env 1 = 0 :=
  ⟨by decide,
   legacy2aidl_nonnull runtime word env0 0 (1 : audio_format_t)
     lib.legacy2aidl_audio_format_t_AudioFormatDescription
     1 ⟨[⟨[], 0⟩], 4, 8⟩ 1 ⟨[⟨[], 0⟩], 4, 8⟩ rfl rfl (by decide)⟩

/-- The theorem `legacy2aidl_conv_error` on the sample runtime: the format code 0 is rejected by
the library, and the encoder returns null having only called `conv`. -/
theorem legacy2aidl_conv_error_witness :
    lib.legacy2aidl_audio_format_t_AudioFormatDescription 0 = .error (-22) ∧
    (legacy2aidl runtime word env0 0 (0 : audio_format_t)
      lib.legacy2aidl_audio_format_t_AudioFormatDescription).ret = 0 ∧
    (legacy2aidl runtime word env0 0 (0 : audio_format_t)
      lib.legacy2aidl_audio_format_t_AudioFormatDescription).trace = [.conv] :=
  ⟨rfl,
   (legacy2aidl_conv_error runtime word env0 0 (0 : audio_format_t)
     lib.legacy2aidl_audio_format_t_AudioFormatDescription (-22) rfl).1,
   (legacy2aidl_conv_error runtime word env0 0 (0 : audio_format_t)
     lib.legacy2aidl_audio_format_t_AudioFormatDescription (-22) rfl).2.1⟩

/-- The theorem `legacy2aidl_ownership` on the sample runtime: a successful run returns the
reference 1 unreleased; a run whose write fails, and a run whose reference has no native parcel,
return null after one `DeleteLocalRef`. -/
theorem legacy2aidl_ownership_witness :
    ((legacy2aidl runtime word env0 0 (1 : audio_format_t)
        lib.legacy2aidl_audio_format_t_AudioFormatDescription).ret = 1 ∧
      (legacy2aidl runtime word env0 0 (1 : audio_format_t)
        lib.legacy2aidl_audio_format_t_AudioFormatDescription).trace.countP
          Call.isDelete = 0) ∧
    ((legacy2aidl runtime word envTiny 0 (1 : audio_format_t)
        lib.legacy2aidl_audio_format_t_AudioFormatDescription).ret = 0 ∧
      (legacy2aidl runtime word envTiny 0 (1 : audio_format_t)
        lib.legacy2aidl_audio_format_t_AudioFormatDescription).trace.countP
          Call.isDelete = 1) ∧
    ((legacy2aidl runtimeNoNative word env0 0 (1 : audio_format_t)
        lib.legacy2aidl_audio_format_t_AudioFormatDescription).ret = 0 ∧
      (legacy2aidl runtimeNoNative word env0 0 (1 : audio_format_t)
        lib.legacy2aidl_audio_format_t_AudioFormatDescription).trace.countP
          Call.isDelete = 1) :=
  ⟨(let h := (legacy2aidl_ownership runtime word env0 0 (1 : audio_format_t)
      lib.legacy2aidl_audio_format_t_AudioFormatDescription 1
      1 ⟨[⟨[], 0⟩], 4, 8⟩ 1 ⟨[⟨[], 0⟩], 4, 8⟩ 0 ⟨[⟨[1], 1⟩], 4, 8⟩
      rfl rfl (by decide) rfl rfl).2.1 ⟨by decide, rfl⟩
    ⟨h.1, h.2⟩),
   (let h := (legacy2aidl_ownership runtime word envTiny 0 (1 : audio_format_t)
      lib.legacy2aidl_audio_format_t_AudioFormatDescription 1
      1 ⟨[⟨[], 0⟩], 4, 0⟩ 1 ⟨[⟨[], 0⟩], 4, 0⟩ (-12) ⟨[⟨[], 0⟩], 4, 0⟩
      rfl rfl (by decide) rfl rfl).2.2 (Or.inr (by decide))
    ⟨h.1, h.2.2.1⟩),
   (let h := (legacy2aidl_ownership runtimeNoNative word env0 0 (1 : audio_format_t)
      lib.legacy2aidl_audio_format_t_AudioFormatDescription 1
      7 env0 0 env0 (-12) env0
      rfl rfl (by decide) rfl rfl).2.2 (Or.inl rfl)
    ⟨h.1, h.2.2.1⟩)⟩

/-- The theorem `legacy2aidl_characterisation` on the sample runtime: with room for a parcel the
encoder returns a non-null handle; with no room it returns null and logs one diagnostic. -/
theorem legacy2aidl_characterisation_witness :
    (legacy2aidl runtime word env0 0 (1 : audio_format_t)
      lib.legacy2aidl_audio_format_t_AudioFormatDescription).ret ≠ 0 ∧
    (legacy2aidl runtime word envFull 0 (1 : audio_format_t)
      lib.legacy2aidl_audio_format_t_AudioFormatDescription).ret = 0 ∧
    (legacy2aidl runtime word envFull 0 (1 : audio_format_t)
      lib.legacy2aidl_audio_format_t_AudioFormatDescription).trace.countP Call.isLog = 1 :=
  ⟨(legacy2aidl_characterisation runtime word env0 0 (1 : audio_format_t)
      lib.legacy2aidl_audio_format_t_AudioFormatDescription
      1 ⟨[⟨[], 0⟩], 4, 8⟩ 1 ⟨[⟨[], 0⟩], 4, 8⟩ rfl rfl).1.mpr
      ⟨1, rfl, by decide, by decide, rfl⟩,
   ((legacy2aidl_characterisation runtime word envFull 0 (1 : audio_format_t)
      lib.legacy2aidl_audio_format_t_AudioFormatDescription
      0 envFull 0 envFull rfl rfl).2.2.2.2.2.2.2.2 ⟨1, rfl⟩ rfl).1,
   ((legacy2aidl_characterisation runtime word envFull 0 (1 : audio_format_t)
      lib.legacy2aidl_audio_format_t_AudioFormatDescription
      0 envFull 0 envFull rfl rfl).2.2.2.2.2.2.2.2 ⟨1, rfl⟩ rfl).2.2.1⟩

/-- The theorem `failure_handling` on the sample runtime: decoding a reference without parcel
returns the fallback with one diagnostic, and encoding with no room for a parcel returns null
with one diagnostic. -/
theorem failure_handling_witness :
    ((aidl2legacy runtime word env0 0 1
        lib.aidl2legacy_AudioFormatDescription_audio_format_t (-1)).ret = -1 ∧
      (aidl2legacy runtime word env0 0 1
        lib.aidl2legacy_AudioFormatDescription_audio_format_t (-1)).trace.countP
          Call.isLog = 1) ∧
    ((legacy2aidl runtime word envFull 0 (1 : audio_format_t)
        lib.legacy2aidl_audio_format_t_AudioFormatDescription).ret = 0 ∧
      (legacy2aidl runtime word envFull 0 (1 : audio_format_t)
        lib.legacy2aidl_audio_format_t_AudioFormatDescription).trace.countP
          Call.isLog = 1) :=
  ⟨(failure_handling runtime word word env0 0 1
      lib.aidl2legacy_AudioFormatDescription_audio_format_t (-1)
      0 env0 (-61) 0 env0 rfl rfl
      envFull (1 : audio_format_t) lib.legacy2aidl_audio_format_t_AudioFormatDescription
      0 envFull 0 envFull rfl rfl).1 rfl,
   (failure_handling runtime word word env0 0 1
      lib.aidl2legacy_AudioFormatDescription_audio_format_t (-1)
      0 env0 (-61) 0 env0 rfl rfl
      envFull (1 : audio_format_t) lib.legacy2aidl_audio_format_t_AudioFormatDescription
      0 envFull 0 envFull rfl rfl).2.2.2.2.1 ⟨1, rfl⟩ rfl⟩

/-- The theorem `bindings_instantiate` on the sample runtime, where the null handle resolves to
no parcel: both decoders return their sentinel, -1 and -1073741824 as `int`, with one
diagnostic. -/
theorem bindings_instantiate_witness :
    (runtime.parcelForJavaObject 0 env0).1 = 0 ∧
    toInt lib.AUDIO_FORMAT_INVALID = -1 ∧
    toInt lib.AUDIO_CHANNEL_INVALID = -1073741824 ∧
    (aidl2legacy_AudioFormatDescription_Parcel_audio_format_t runtime word lib env0 0 0).ret =
      toInt lib.AUDIO_FORMAT_INVALID ∧
    (aidl2legacy_AudioFormatDescription_Parcel_audio_format_t runtime word lib env0 0
      0).trace.countP Call.isLog = 1 ∧
    (aidl2legacy_AudioChannelLayout_Parcel_audio_channel_mask_t runtime word lib env0 0 0
      true).ret = toInt lib.AUDIO_CHANNEL_INVALID ∧
    (aidl2legacy_AudioChannelLayout_Parcel_audio_channel_mask_t runtime word lib env0 0 0
      true).trace.countP Call.isLog = 1 :=
  ⟨rfl, by decide, by decide,
   (bindings_instantiate runtime word word lib env0 0 0 0 true).2.2.2.2 rfl⟩

/-- The theorem `format_round_trip` at `AUDIO_FORMAT_PCM_16_BIT` on the sample runtime: the
encoder returns the reference 1 and the decoder returns the format code passed in. -/
theorem format_round_trip_witness :
    isInt32 (toInt AUDIO_FORMAT_PCM_16_BIT) ∧
    (legacy2aidl_audio_format_t_AudioFormatDescription_Parcel runtime word lib env0 0
      (toInt AUDIO_FORMAT_PCM_16_BIT)).ret = 1 ∧
    (aidl2legacy_AudioFormatDescription_Parcel_audio_format_t runtime word lib
      (legacy2aidl_audio_format_t_AudioFormatDescription_Parcel runtime word lib env0 0
        (toInt AUDIO_FORMAT_PCM_16_BIT)).env
      0
      (legacy2aidl_audio_format_t_AudioFormatDescription_Parcel runtime word lib env0 0
        (toInt AUDIO_FORMAT_PCM_16_BIT)).ret).ret = toInt AUDIO_FORMAT_PCM_16_BIT :=
  ⟨by decide,
   format_round_trip runtime word lib env0 0 (toInt AUDIO_FORMAT_PCM_16_BIT) (by decide)
     1 rfl rfl
     1 ⟨[⟨[], 0⟩], 4, 8⟩ 1 ⟨[⟨[], 0⟩], 4, 8⟩ ⟨[⟨[1], 1⟩], 4, 8⟩
     rfl (by decide) rfl (by decide) rfl
     1 ⟨[⟨[1], 0⟩], 4, 8⟩ ⟨[⟨[1], 1⟩], 4, 8⟩
     rfl (by decide) rfl⟩

/-- The theorem `channel_mask_round_trip` on the sample runtime at the input mask 0x80000003,
the `int` -2147483645, whose top bit is set: the decoder returns that same `int`. -/
theorem channel_mask_round_trip_witness :
    isInt32 (-2147483645) ∧
    (legacy2aidl_audio_channel_mask_t_AudioChannelLayout_Parcel runtime word lib env0 0
      (-2147483645) true).ret = 1 ∧
    (aidl2legacy_AudioChannelLayout_Parcel_audio_channel_mask_t runtime word lib
      (legacy2aidl_audio_channel_mask_t_AudioChannelLayout_Parcel runtime word lib env0 0
        (-2147483645) true).env
      0
      (legacy2aidl_audio_channel_mask_t_AudioChannelLayout_Parcel runtime word lib env0 0
        (-2147483645) true).ret true).ret = -2147483645 :=
  ⟨by decide,
   channel_mask_round_trip runtime word lib env0 0 (-2147483645) true (by decide)
     4294967303 (by with_unfolding_all rfl) (by with_unfolding_all rfl)
     1 ⟨[⟨[], 0⟩], 4, 8⟩ 1 ⟨[⟨[], 0⟩], 4, 8⟩ ⟨[⟨[4294967303], 1⟩], 4, 8⟩
     rfl (by decide) rfl (by decide) rfl
     1 ⟨[⟨[4294967303], 0⟩], 4, 8⟩ ⟨[⟨[4294967303], 1⟩], 4, 8⟩
     rfl (by decide) rfl⟩

end Witnesses

end AidlConversion
